import Mathlib

/-!
Verification development for the nba-ai-agents repository.

The Python sources are shallowly embedded: pure tool functions become Lean
functions; file-backed storage becomes explicit state values threaded through
the functions; Python dictionaries with known key sets become structures;
fallible paths (missing file, JSON decode error, storage error) become
explicit constructors of the state or result types. Numeric JSON values are
modelled with Int and Rat. String formatting follows the source except that
quote characters inside messages are elided.
-/

namespace NBA

/-- Python substring test `needle in hay` on lists of characters:
true iff the needle occurs contiguously in the hay (the empty needle
occurs in every string). -/
def list_contains_sub (needle : List Char) : List Char → Bool
  | [] => needle.isEmpty
  | c :: t => needle.isPrefixOf (c :: t) || list_contains_sub needle t

/-- Python substring test `needle in hay` on strings. -/
def str_contains (hay needle : String) : Bool :=
  list_contains_sub needle.data hay.data

/-! ## src/tools/historical_patterns_tool.py

The tool reads `data/historical_customer_data.json`, a static dataset mapping
segment names to segment data. The dataset (or its absence / unreadability)
is modelled by an `Option CustomerDB` parameter: `none` models the file being
missing or unparsable (both source branches return an error dictionary). -/

/-- One entry of a segment's `successful_actions` list. Fields that the code
reads with a `.get` default are `Option`s. -/
structure ActionEntry where
  action : String
  success_rate : Option ℚ
  sample_size : Option ℕ
deriving Repr, DecidableEq

/-- The per-segment data held under `customer_segments` in the dataset. -/
structure SegmentData where
  successful_actions : List ActionEntry
deriving Repr, DecidableEq

/-- The `customer_segments` mapping of the historical dataset. -/
abbrev CustomerDB := List (String × SegmentData)

/-- Result of `query_historical_patterns` when called with a segment:
either the segment data, or an error dictionary (modelled by its message). -/
inductive QueryOut
  | ok (segment : String) (data : SegmentData)
  | err (msg : String)
deriving Repr, DecidableEq

/-- Embeds `query_historical_patterns(segment=...)` (the segment branch used
by the claims): a missing or unparsable data file yields an error dictionary,
an unknown segment yields an error dictionary, otherwise the segment data is
returned. -/
def query_historical_patterns (db : Option CustomerDB) (segment : String) : QueryOut :=
  match db with
  | none => .err "Historical data file not found"
  | some d =>
    match d.lookup segment with
    | some sd => .ok segment sd
    | none => .err ("Segment not found: " ++ segment)

/-- The customer profile after JSON parsing and the `.get` defaults applied
in `find_similar_customer_segment`. -/
structure CustomerProfile where
  churn_risk : String
  cart_status : String
  segment : String
  total_orders : ℤ
  days_since_last_purchase : ℤ
deriving Repr, DecidableEq

/-- The if/elif chain of `find_similar_customer_segment` that picks the
matched segment name. -/
def matched_segment_for (p : CustomerProfile) : String :=
  if p.cart_status = "abandoned" then "price_sensitive_cart_abandoners"
  else if p.segment = "vip" then "vip_customers"
  else if p.churn_risk = "high" ∨ 60 < p.days_since_last_purchase then "high_churn_risk"
  else if p.total_orders = 0 then "first_time_browsers"
  else if 3 ≤ p.total_orders then "repeat_buyers"
  else "first_time_browsers"

/-- Return value of `find_similar_customer_segment`; `segment_data` is `none`
when the underlying query returned an error (the source then uses `{}`). -/
structure FindSimilarOut where
  matched_segment : String
  segment_data : Option SegmentData
  confidence : ℚ
deriving Repr, DecidableEq

/-- Embeds `find_similar_customer_segment`: pick the matched segment by the
if/elif chain, then attach that segment's data from the dataset. -/
def find_similar_customer_segment (db : Option CustomerDB) (p : CustomerProfile) :
    FindSimilarOut :=
  let m := matched_segment_for p
  { matched_segment := m
    segment_data :=
      match query_historical_patterns db m with
      | .ok _ sd => some sd
      | .err _ => none
    confidence := 17/20 }

/-- The match test of `get_action_success_rate`: the lower-cased action type
occurs as a substring of the lower-cased action name. -/
def matches_action (action_type : String) (a : ActionEntry) : Bool :=
  str_contains a.action.toLower action_type.toLower

/-- The inner loop of `get_action_success_rate`: the first successful action
whose (lower-cased) name contains the (lower-cased) action type gives its
success rate (default 1/2); no match gives 1/2. -/
def find_rate (action_type : String) : List ActionEntry → ℚ
  | [] => 1/2
  | a :: rest =>
    if matches_action action_type a then a.success_rate.getD (1/2)
    else find_rate action_type rest

/-- Embeds `get_action_success_rate`: a query error yields the neutral default
1/2, otherwise the first matching successful action decides. -/
def get_action_success_rate (db : Option CustomerDB) (action_type segment : String) : ℚ :=
  match query_historical_patterns db segment with
  | .err _ => 1/2
  | .ok _ sd => find_rate action_type sd.successful_actions

/-- The segment data the dataset holds for a segment name, if any
(`none` both for a missing dataset and for an unknown segment). -/
def find_segment (db : Option CustomerDB) (segment : String) : Option SegmentData :=
  db.bind fun d => d.lookup segment

/-- The successful actions stored for a segment (empty when unknown). -/
def segment_actions (db : Option CustomerDB) (segment : String) : List ActionEntry :=
  ((find_segment db segment).map SegmentData.successful_actions).getD []

/-- Spec-side formulation of the matching rule: an ordered list of
(predicate, scenario key) pairs in the priority order stated by the spec. -/
def scenario_rules : List ((CustomerProfile → Bool) × String) :=
  [ (fun p => decide (p.cart_status = "abandoned"), "price_sensitive_cart_abandoners"),
    (fun p => decide (p.segment = "vip"), "vip_customers"),
    (fun p => decide (p.churn_risk = "high" ∨ 60 < p.days_since_last_purchase), "high_churn_risk"),
    (fun p => decide (p.total_orders = 0), "first_time_browsers"),
    (fun p => decide (3 ≤ p.total_orders), "repeat_buyers") ]

/-- Spec-side first-match-wins selection over an ordered rule list, falling
back to the default scenario key. -/
def first_matching_key : List ((CustomerProfile → Bool) × String) → CustomerProfile → String
  | [], _ => "first_time_browsers"
  | (c, k) :: rest, p => if c p then k else first_matching_key rest p

/-! ## src/tools/results_tracker_tool.py

`record_result` reads `data/historical_actions.json` (a JSON list, treated as
the empty list when the file does not exist), appends one record and writes
the list back. The file is modelled by `ActionsFile`: `absent` for a missing
file, `stored log` for a readable JSON list, and `corrupt cause` for any state
in which the storage layer raises an exception with message `cause` (an
unparsable file, an I/O failure, ...). -/

/-- One record of the historical-actions log, as built by `record_result`.
The nondeterministic `datetime.now().isoformat()` is passed in as `timestamp`. -/
structure ActionRecord where
  timestamp : String
  customer_id : String
  customer_segment : String
  scenario_type : String
  action_type : String
  channel : String
  estimated_cost : ℚ
  predicted_roi : ℚ
  action_status : String
  approved_by : String
deriving Repr, DecidableEq

/-- State of the historical-actions file. -/
inductive ActionsFile
  | absent
  | stored (log : List ActionRecord)
  | corrupt (cause : String)
deriving Repr, DecidableEq

/-- The log that the loading step of `record_result` produces: a missing file
loads as the empty list. (On a `corrupt` file the source raises instead; the
value returned here for that case is never used by the theorems.) -/
def load_actions : ActionsFile → List ActionRecord
  | .absent => []
  | .stored log => log
  | .corrupt _ => []

/-- True when loading and writing the actions file succeeds. -/
def is_writable : ActionsFile → Bool
  | .corrupt _ => false
  | _ => true

/-- The confirmation dictionary returned by `record_result`. -/
inductive RecordOut
  | success (message : String) (recorded_data : ActionRecord)
      (total_historical_actions : ℕ) (learning_impact : String)
  | error (message : String)
deriving Repr, DecidableEq

/-- True on the `status = success` dictionary. -/
def RecordOut.is_success : RecordOut → Bool
  | .success _ _ _ _ => true
  | .error _ => false

/-- The `total_historical_actions` field of the confirmation, when present. -/
def RecordOut.total : RecordOut → Option ℕ
  | .success _ _ n _ => some n
  | .error _ => none

/-- The action record that `record_result` prepares before touching storage
(source lines 39 to 50): in particular `approved_by` is `human` exactly when
`action_status` is the string `scheduled`, and `rejected` otherwise. -/
def mk_action_record (now customer_id action_type action_status segment : String)
    (predicted_roi estimated_cost : ℚ) (channel scenario : String) : ActionRecord :=
  { timestamp := now
    customer_id := customer_id
    customer_segment := segment
    scenario_type := scenario
    action_type := action_type
    channel := channel
    estimated_cost := estimated_cost
    predicted_roi := predicted_roi
    action_status := action_status
    approved_by := if action_status = "scheduled" then "human" else "rejected" }

/-- Embeds `record_result`: build the record, load the existing list (empty if
the file is absent), append, write back, and return the success dictionary;
any storage exception is caught and turned into an error dictionary carrying
the cause message. -/
def record_result (now customer_id action_type action_status segment : String)
    (predicted_roi estimated_cost : ℚ) (channel scenario : String)
    (fs : ActionsFile) : ActionsFile × RecordOut :=
  let rec0 := mk_action_record now customer_id action_type action_status segment
      predicted_roi estimated_cost channel scenario
  match fs with
  | .corrupt cause => (fs, .error ("Failed to record action: " ++ cause))
  | .absent =>
    (.stored [rec0],
     .success ("Action recorded as " ++ action_status.toUpper) rec0 1
       ("This data will improve future predictions for " ++ segment ++
        " customers in " ++ scenario ++ " scenarios"))
  | .stored log =>
    (.stored (log ++ [rec0]),
     .success ("Action recorded as " ++ action_status.toUpper) rec0 (log ++ [rec0]).length
       ("This data will improve future predictions for " ++ segment ++
        " customers in " ++ scenario ++ " scenarios"))

/-! ## src/agents/agent_8_approval_adk.py

`request_human_approval` inspects `tool_context.tool_confirmation`. The ADK
tool context is modelled by the fields the function touches: the optional
recorded confirmation, and the list of confirmation requests issued so far
(`request_confirmation` appends to it). -/

/-- The recorded human decision attached to the tool context. -/
structure ToolConfirmation where
  confirmed : Bool
deriving Repr, DecidableEq

/-- One confirmation request issued through `tool_context.request_confirmation`. -/
structure ConfirmationRequest where
  hint : String
  payload_action : String
  payload_cost : String
  payload_roi : String
deriving Repr, DecidableEq

/-- The slice of the ADK `ToolContext` used by `request_human_approval`. -/
structure ToolContext where
  tool_confirmation : Option ToolConfirmation
  confirmation_requests : List ConfirmationRequest
deriving Repr, DecidableEq

/-- The dictionary returned by `request_human_approval`: the pending
dictionary has no `approved` key; the decided dictionaries do. -/
inductive ApprovalOut
  | pending (message : String)
  | decided (status : String) (message : String) (approved : Bool)
deriving Repr, DecidableEq

/-- The `approved` field of the result, when present. -/
def ApprovalOut.approved : ApprovalOut → Option Bool
  | .pending _ => none
  | .decided _ _ b => some b

/-- Embeds `request_human_approval`: with no recorded confirmation it issues a
confirmation request and returns the pending dictionary; with a recorded
confirmation it leaves the context untouched and returns the decision
dictionary determined by `confirmed`. -/
def request_human_approval (action_summary estimated_cost expected_roi : String)
    (tool_context : ToolContext) : ToolContext × ApprovalOut :=
  match tool_context.tool_confirmation with
  | none =>
    ({ tool_context with
        confirmation_requests := tool_context.confirmation_requests ++
          [{ hint := "Approve marketing action?"
             payload_action := action_summary
             payload_cost := estimated_cost
             payload_roi := expected_roi }] },
     .pending "Waiting for human approval")
  | some tc =>
    (tool_context,
     if tc.confirmed then
       .decided "approved" "Action approved by human reviewer" true
     else
       .decided "rejected" "Action rejected by human reviewer" false)

/-! ## Retry configuration (src/agents/agent_0 ... agent_9)

Every agent module builds a `types.HttpRetryOptions` value at import time;
the structure below embeds the four fields each module sets. -/

/-- The retry options each agent module passes to its Gemini model. -/
structure HttpRetryOptions where
  attempts : ℕ
  exp_base : ℕ
  initial_delay : ℕ
  http_status_codes : List ℕ
deriving Repr, DecidableEq

/-- The retry policy the spec names as the observed default in this domain. -/
def standard_retry_config : HttpRetryOptions :=
  { attempts := 5, exp_base := 7, initial_delay := 1
    http_status_codes := [429, 500, 503, 504] }

namespace Agent0

/-- Embeds `retry_config` of src/agents/agent_0_proxy_adk.py. -/
def retry_config : HttpRetryOptions :=
  { attempts := 5, exp_base := 7, initial_delay := 1
    http_status_codes := [429, 500, 503, 504] }

end Agent0

namespace Agent1

/-- Embeds `retry_config` of src/agents/agent_1_profiler_adk.py. -/
def retry_config : HttpRetryOptions :=
  { attempts := 5, exp_base := 7, initial_delay := 1
    http_status_codes := [429, 500, 503, 504] }

end Agent1

namespace Agent2

/-- Embeds `retry_config` of src/agents/agent_2_pattern_adk.py. -/
def retry_config : HttpRetryOptions :=
  { attempts := 5, exp_base := 7, initial_delay := 1
    http_status_codes := [429, 500, 503, 504] }

end Agent2

namespace Agent3

/-- Embeds `retry_config` of src/agents/agent_3_generator_adk.py. -/
def retry_config : HttpRetryOptions :=
  { attempts := 5, exp_base := 7, initial_delay := 1
    http_status_codes := [429, 500, 503, 504] }

end Agent3

namespace Agent4

/-- Embeds `retry_config` of src/agents/agent_4_validator_adk.py. -/
def retry_config : HttpRetryOptions :=
  { attempts := 5, exp_base := 7, initial_delay := 1
    http_status_codes := [429, 500, 503, 504] }

end Agent4

namespace Agent5

/-- Embeds `retry_config` of src/agents/agent_5_scorer_adk.py. -/
def retry_config : HttpRetryOptions :=
  { attempts := 5, exp_base := 7, initial_delay := 1
    http_status_codes := [429, 500, 503, 504] }

end Agent5

namespace Agent6

/-- Embeds `retry_config` of src/agents/agent_6_timing_adk.py. -/
def retry_config : HttpRetryOptions :=
  { attempts := 5, exp_base := 7, initial_delay := 1
    http_status_codes := [429, 500, 503, 504] }

end Agent6

namespace Agent7

/-- Embeds `retry_config` of src/agents/agent_7_content_adk.py. -/
def retry_config : HttpRetryOptions :=
  { attempts := 5, exp_base := 7, initial_delay := 1
    http_status_codes := [429, 500, 503, 504] }

end Agent7

namespace Agent8

/-- Embeds `retry_config` of src/agents/agent_8_approval_adk.py. -/
def retry_config : HttpRetryOptions :=
  { attempts := 5, exp_base := 7, initial_delay := 1
    http_status_codes := [429, 500, 503, 504] }

end Agent8

namespace Agent9

/-- Embeds `retry_config` of src/agents/agent_9_tracker_adk.py. -/
def retry_config : HttpRetryOptions :=
  { attempts := 5, exp_base := 7, initial_delay := 1
    http_status_codes := [429, 500, 503, 504] }

end Agent9

/-! ## src/coordinator_full.py — the agent tree

`SequentialAgent`, `ParallelAgent` and the leaf `Agent` values form a static
tree; only the structure (node kind, name, ordered sub-agent list,
description) is embedded. -/

/-- The static tree of ADK agents. -/
inductive AgentTree
  | leaf (name : String)
  | sequential (name : String) (sub_agents : List AgentTree) (description : String)
  | parallel (name : String) (sub_agents : List AgentTree) (description : String)

/-- The ordered sub-agent list of a node (empty for a leaf). -/
def AgentTree.sub_agents : AgentTree → List AgentTree
  | .leaf _ => []
  | .sequential _ s _ => s
  | .parallel _ s _ => s

/-- True on `SequentialAgent` nodes. -/
def AgentTree.is_sequential : AgentTree → Bool
  | .sequential _ _ _ => true
  | _ => false

/-- True on `ParallelAgent` nodes. -/
def AgentTree.is_parallel : AgentTree → Bool
  | .parallel _ _ _ => true
  | _ => false

/-- Agent 0, src/agents/agent_0_proxy_adk.py. -/
def proxy_agent : AgentTree := .leaf "ProxyCustomerAgent"

/-- Agent 1, src/agents/agent_1_profiler_adk.py. -/
def customer_profiler_agent : AgentTree := .leaf "CustomerProfilerAgent"

/-- Agent 2, src/agents/agent_2_pattern_adk.py. -/
def pattern_matcher_agent : AgentTree := .leaf "PatternMatcherAgent"

/-- Agent 3, src/agents/agent_3_generator_adk.py. -/
def action_generator_agent : AgentTree := .leaf "ActionGeneratorAgent"

/-- Agent 4, src/agents/agent_4_validator_adk.py. -/
def validator_agent : AgentTree := .leaf "ValidatorAgent"

/-- Agent 5, src/agents/agent_5_scorer_adk.py. -/
def scorer_agent : AgentTree := .leaf "ScorerAgent"

/-- Agent 6, src/agents/agent_6_timing_adk.py. -/
def timing_agent : AgentTree := .leaf "TimingAgent"

/-- Agent 7, src/agents/agent_7_content_adk.py. -/
def content_agent : AgentTree := .leaf "ContentAgent"

/-- Agent 8, src/agents/agent_8_approval_adk.py. -/
def approval_agent : AgentTree := .leaf "HumanApprovalAgent"

/-- Agent 9, src/agents/agent_9_tracker_adk.py. -/
def tracker_agent : AgentTree := .leaf "ResultsTrackerAgent"

/-- Cluster 1 of coordinator_full.py. -/
def cluster_1_discovery : AgentTree :=
  .sequential "DiscoveryCluster"
    [proxy_agent, customer_profiler_agent, pattern_matcher_agent, action_generator_agent]
    "Customer discovery and action generation pipeline"

/-- Cluster 2 of coordinator_full.py. -/
def cluster_2_validation : AgentTree :=
  .parallel "ValidationCluster"
    [validator_agent, scorer_agent]
    "Parallel validation and scoring of generated actions"

/-- Cluster 3 of coordinator_full.py. -/
def cluster_3_execution : AgentTree :=
  .sequential "ExecutionCluster"
    [timing_agent, content_agent, approval_agent, tracker_agent]
    "Execution planning with human approval and tracking"

/-- The top-level orchestrator of coordinator_full.py. -/
def nba_orchestrator : AgentTree :=
  .sequential "NbaOrchestrator"
    [cluster_1_discovery, cluster_2_validation, cluster_3_execution]
    "Complete Next Best Action Orchestrator (10 agents with HITL)"

/-! ## src/tools/analytics_tool.py

`get_historical_actions` reads the same `historical_actions.json` file, but
the analytics functions project each entry through `.get` defaults onto the
fields below, so the log is modelled as a list of those projections. Float
arithmetic of the source is modelled over ℚ; Python `round(x, n)` rounds half
to even, embedded by `round_half_even` and `py_round`. -/

/-- An entry of the historical-actions file as the analytics functions read
it: every field via `.get` with a default. -/
structure PerfRecord where
  action_type : String
  converted : Bool
  opened : Bool
  clicked : Bool
  roi : ℚ
deriving Repr, DecidableEq

/-- Performance metrics returned by `get_action_performance_by_type`. -/
structure PerfOut where
  action_type : String
  total_actions : ℕ
  avg_roi : ℚ
  conversion_rate : ℚ
  open_rate : ℚ
  click_rate : ℚ
deriving Repr, DecidableEq

/-- Round to the nearest integer, ties to the even integer (the Python
`round` rule on exact values). -/
def round_half_even (q : ℚ) : ℤ :=
  if q - ⌊q⌋ < 1/2 then ⌊q⌋
  else if 1/2 < q - ⌊q⌋ then ⌊q⌋ + 1
  else if 2 ∣ ⌊q⌋ then ⌊q⌋ else ⌊q⌋ + 1

/-- Python `round(q, d)`. -/
def py_round (q : ℚ) (d : ℕ) : ℚ :=
  (round_half_even (q * 10 ^ d) : ℚ) / 10 ^ d

/-- Embeds `get_action_performance_by_type` on a log of projected entries. -/
def get_action_performance_by_type (log : List PerfRecord) (action_type : String) :
    PerfOut :=
  let filtered := log.filter (fun a => a.action_type == action_type)
  if filtered.isEmpty then
    { action_type := action_type, total_actions := 0, avg_roi := 0
      conversion_rate := 0, open_rate := 0, click_rate := 0 }
  else
    let total : ℚ := filtered.length
    let conversions : ℚ := (filtered.filter (fun a => a.converted)).length
    let opens : ℚ := (filtered.filter (fun a => a.opened)).length
    let clicks : ℚ := (filtered.filter (fun a => a.clicked)).length
    let avg_roi := (filtered.map (fun a => a.roi)).sum / total
    { action_type := action_type
      total_actions := filtered.length
      avg_roi := py_round avg_roi 2
      conversion_rate := py_round (conversions / total * 100) 2
      open_rate := py_round (opens / total * 100) 2
      click_rate := py_round (clicks / total * 100) 2 }

/-- The action dictionary as `score_action` reads it, after `.get` defaults. -/
structure ScoreInput where
  action_id : Option String
  action_type : String
  channel : String
  estimated_cost : ℚ
deriving Repr, DecidableEq

/-- The score dictionary returned by `score_action`. -/
structure ScoreOut where
  action_id : Option String
  roi_score : ℚ
  predicted_roi : ℚ
  conversion_probability : ℚ
  confidence : String
deriving Repr, DecidableEq

/-- Embeds `score_action`: base score is the historical average ROI halved and
clamped to [1, 10]; cost and channel adjustments follow; the final score is
clamped to [1, 10] again and rounded to one decimal. -/
def score_action (log : List PerfRecord) (action : ScoreInput) : ScoreOut :=
  let perf := get_action_performance_by_type log action.action_type
  let score := min 10 (max 1 (perf.avg_roi / 2))
  let score :=
    if action.estimated_cost < 50 then score + 1
    else if 500 < action.estimated_cost then score - 1
    else score
  let score := if action.channel = "email" then score + 1/2 else score
  { action_id := action.action_id
    roi_score := py_round (min 10 (max 1 score)) 1
    predicted_roi := perf.avg_roi
    conversion_probability := perf.conversion_rate
    confidence := "medium" }

/-! ## Combined storage state

The discovery-side readers (`query_historical_patterns`,
`get_action_success_rate`) read `historical_customer_data.json`, while
`record_result` writes `historical_actions.json`. The combined state carries
both files, so that a write followed by a read can be stated in one place. -/

/-- The two storage files the claims relate. -/
structure SystemState where
  customer_data : Option CustomerDB
  actions_file : ActionsFile
deriving Repr, DecidableEq

/-- The argument bundle of one `record_result` call (the timestamp drawn from
`datetime.now()` included). -/
structure RecordArgs where
  now : String
  customer_id : String
  action_type : String
  action_status : String
  segment : String
  predicted_roi : ℚ
  estimated_cost : ℚ
  channel : String
  scenario : String
deriving Repr, DecidableEq

/-- One `record_result` call against the combined state: only the
historical-actions file is touched. -/
def record_result_run (a : RecordArgs) (st : SystemState) : SystemState × RecordOut :=
  let r := record_result a.now a.customer_id a.action_type a.action_status a.segment
      a.predicted_roi a.estimated_cost a.channel a.scenario st.actions_file
  ({ st with actions_file := r.1 }, r.2)

/-- Run a sequence of `record_result` calls, keeping the final state. -/
def run_appends (calls : List RecordArgs) (st : SystemState) : SystemState :=
  calls.foldl (fun s a => (record_result_run a s).1) st

/-- The sample size the discovery-side query reflects for a segment: the sum
of the `sample_size` fields of the successful actions returned by
`query_historical_patterns`, and 0 when the query returns an error. -/
def reflected_sample_size (st : SystemState) (segment : String) : ℕ :=
  match query_historical_patterns st.customer_data segment with
  | .err _ => 0
  | .ok _ sd => (sd.successful_actions.map (fun a => a.sample_size.getD 0)).sum

/-! ## Theorems -/

/-- C1: `find_similar_customer_segment` selects exactly one scenario key by
the fixed priority order cart-abandoned > vip-segment > high-churn-or-stale >
zero-history > repeat-buyer > default, first match wins; in particular every
profile with cart status `abandoned` resolves to
`price_sensitive_cart_abandoners`, even with segment `vip`. -/
theorem claim_C1_scenario_priority (db : Option CustomerDB) (p : CustomerProfile) :
    (find_similar_customer_segment db p).matched_segment = first_matching_key scenario_rules p ∧
    (p.cart_status = "abandoned" →
      (find_similar_customer_segment db p).matched_segment = "price_sensitive_cart_abandoners") := by
  constructor
  · by_cases hc : p.cart_status = "abandoned" <;>
    by_cases hv : p.segment = "vip" <;>
    by_cases hh : p.churn_risk = "high" ∨ 60 < p.days_since_last_purchase <;>
    by_cases h0 : p.total_orders = 0 <;>
    by_cases h3 : 3 ≤ p.total_orders <;>
    simp [find_similar_customer_segment, matched_segment_for, scenario_rules,
      first_matching_key, hc, hv, hh, h0, h3]
  · intro h
    simp [find_similar_customer_segment, matched_segment_for, h]

/-- A profile with an abandoned cart and vip segment, for the C1 witness. -/
def vip_abandoned_profile : CustomerProfile :=
  { churn_risk := "low", cart_status := "abandoned", segment := "vip"
    total_orders := 12, days_since_last_purchase := 3 }

/-- Witness for C1 at a concrete vip profile with an abandoned cart. -/
theorem claim_C1_scenario_priority_witness :
    vip_abandoned_profile.cart_status = "abandoned" ∧
    (find_similar_customer_segment (some []) vip_abandoned_profile).matched_segment =
      "price_sensitive_cart_abandoners" :=
  ⟨rfl, (claim_C1_scenario_priority (some []) vip_abandoned_profile).2 rfl⟩

/-- C3: the top-level pipeline is a Sequential node whose children, in order,
are the Sequential discovery cluster (proxy, profiler, pattern matcher,
action generator), the Parallel validation cluster (validator and scorer),
and the Sequential execution cluster (timing, content, approval, tracker);
the Parallel block sits strictly between discovery and execution. -/
theorem claim_C3_pipeline_shape :
    nba_orchestrator.is_sequential = true ∧
    nba_orchestrator.sub_agents =
      [cluster_1_discovery, cluster_2_validation, cluster_3_execution] ∧
    cluster_1_discovery.is_sequential = true ∧
    cluster_1_discovery.sub_agents =
      [proxy_agent, customer_profiler_agent, pattern_matcher_agent, action_generator_agent] ∧
    cluster_2_validation.is_parallel = true ∧
    cluster_2_validation.sub_agents = [validator_agent, scorer_agent] ∧
    cluster_3_execution.is_sequential = true ∧
    cluster_3_execution.sub_agents =
      [timing_agent, content_agent, approval_agent, tracker_agent] :=
  ⟨rfl, rfl, rfl, rfl, rfl, rfl, rfl, rfl⟩

/-- C4: with a recorded confirmation, `request_human_approval` returns the
decision determined solely by that confirmation (`approved` is true iff
`confirmed`), issues no new confirmation request (the context is unchanged),
and a second call returns the identical result. -/
theorem claim_C4_approval_idempotent (a c e : String) (ctx : ToolContext)
    (tc : ToolConfirmation) (h : ctx.tool_confirmation = some tc) :
    (request_human_approval a c e ctx).2 =
      (if tc.confirmed then
        ApprovalOut.decided "approved" "Action approved by human reviewer" true
       else
        ApprovalOut.decided "rejected" "Action rejected by human reviewer" false) ∧
    (request_human_approval a c e ctx).2.approved = some tc.confirmed ∧
    (request_human_approval a c e ctx).1 = ctx ∧
    (request_human_approval a c e (request_human_approval a c e ctx).1).2 =
      (request_human_approval a c e ctx).2 := by
  cases tc with
  | mk b => cases b <;> simp [request_human_approval, h, ApprovalOut.approved]

/-- A context with a recorded positive decision, for the C4 witness. -/
def decided_context : ToolContext :=
  { tool_confirmation := some { confirmed := true }, confirmation_requests := [] }

/-- Witness for C4 at a context holding an approved confirmation. -/
theorem claim_C4_approval_idempotent_witness :
    decided_context.tool_confirmation = some { confirmed := true } ∧
    (request_human_approval "send email" "5" "8" decided_context).2 =
      ApprovalOut.decided "approved" "Action approved by human reviewer" true ∧
    (request_human_approval "send email" "5" "8" decided_context).1 = decided_context := by
  have h := claim_C4_approval_idempotent "send email" "5" "8" decided_context
    { confirmed := true } rfl
  exact ⟨rfl, by simpa using h.1, h.2.2.1⟩

/-- C5: all ten agents use the same retry policy: 5 attempts, exponential
base 7, initial delay 1 second, retryable status codes exactly
429, 500, 503, 504. -/
theorem claim_C5_uniform_retry_policy :
    Agent0.retry_config = standard_retry_config ∧
    Agent1.retry_config = standard_retry_config ∧
    Agent2.retry_config = standard_retry_config ∧
    Agent3.retry_config = standard_retry_config ∧
    Agent4.retry_config = standard_retry_config ∧
    Agent5.retry_config = standard_retry_config ∧
    Agent6.retry_config = standard_retry_config ∧
    Agent7.retry_config = standard_retry_config ∧
    Agent8.retry_config = standard_retry_config ∧
    Agent9.retry_config = standard_retry_config ∧
    standard_retry_config.attempts = 5 ∧
    standard_retry_config.exp_base = 7 ∧
    standard_retry_config.initial_delay = 1 ∧
    standard_retry_config.http_status_codes = [429, 500, 503, 504] :=
  ⟨rfl, rfl, rfl, rfl, rfl, rfl, rfl, rfl, rfl, rfl, rfl, rfl, rfl, rfl⟩

/-- C10: the record built by `record_result` carries `approved_by = human`
exactly when the action status is the string `scheduled`; any other status,
`cancelled` or unrecognized, is recorded as `rejected`. -/
theorem claim_C10_approved_by_field
    (now customer_id action_type action_status segment : String)
    (predicted_roi estimated_cost : ℚ) (channel scenario : String) :
    ((mk_action_record now customer_id action_type action_status segment
        predicted_roi estimated_cost channel scenario).approved_by = "human" ↔
      action_status = "scheduled") ∧
    (action_status ≠ "scheduled" →
      (mk_action_record now customer_id action_type action_status segment
        predicted_roi estimated_cost channel scenario).approved_by = "rejected") := by
  by_cases h : action_status = "scheduled" <;>
    simp [mk_action_record, h]

/-- Witness for C10 at the statuses scheduled and cancelled. -/
theorem claim_C10_approved_by_field_witness :
    (mk_action_record "t" "c" "email_discount" "scheduled" "s" 8 5 "email"
      "general").approved_by = "human" ∧
    (mk_action_record "t" "c" "email_discount" "cancelled" "s" 8 5 "email"
      "general").approved_by = "rejected" :=
  ⟨(claim_C10_approved_by_field "t" "c" "email_discount" "scheduled" "s" 8 5 "email"
      "general").1.mpr rfl,
   (claim_C10_approved_by_field "t" "c" "email_discount" "cancelled" "s" 8 5 "email"
      "general").2 (by decide)⟩

/-- C6: every successful `record_result` call leaves the prior log intact and
appends exactly one record at the end; the length grows by one and the
returned `total_historical_actions` equals the new length. -/
theorem claim_C6_append_only
    (now customer_id action_type action_status segment : String)
    (predicted_roi estimated_cost : ℚ) (channel scenario : String)
    (fs : ActionsFile) (h : is_writable fs = true) :
    (record_result now customer_id action_type action_status segment predicted_roi
        estimated_cost channel scenario fs).1 =
      ActionsFile.stored (load_actions fs ++
        [mk_action_record now customer_id action_type action_status segment predicted_roi
          estimated_cost channel scenario]) ∧
    (load_actions (record_result now customer_id action_type action_status segment
        predicted_roi estimated_cost channel scenario fs).1).length =
      (load_actions fs).length + 1 ∧
    (record_result now customer_id action_type action_status segment predicted_roi
        estimated_cost channel scenario fs).2.total =
      some ((load_actions fs).length + 1) := by
  cases fs with
  | corrupt cause => simp [is_writable] at h
  | absent => simp [record_result, load_actions, RecordOut.total]
  | stored log => simp [record_result, load_actions, RecordOut.total]

/-- A concrete one-record actions file for the C6 witness. -/
def one_record_file : ActionsFile :=
  ActionsFile.stored
    [mk_action_record "t0" "c0" "sms_reminder" "cancelled" "vip_customers" 6 2 "sms" "general"]

/-- Witness for C6 at a concrete one-record file. -/
theorem claim_C6_append_only_witness :
    is_writable one_record_file = true ∧
    (record_result "t1" "c1" "email_discount" "scheduled" "repeat_buyers" 8 5 "email"
        "general" one_record_file).1 =
      ActionsFile.stored (load_actions one_record_file ++
        [mk_action_record "t1" "c1" "email_discount" "scheduled" "repeat_buyers" 8 5
          "email" "general"]) :=
  ⟨rfl,
   (claim_C6_append_only "t1" "c1" "email_discount" "scheduled" "repeat_buyers" 8 5
      "email" "general" one_record_file rfl).1⟩

/-- C7: `record_result` is total towards its caller: for every input it
returns either the success dictionary carrying the appended record, or, on a
storage error, the error dictionary carrying the cause message. -/
theorem claim_C7_error_surfaced
    (now customer_id action_type action_status segment : String)
    (predicted_roi estimated_cost : ℚ) (channel scenario : String)
    (fs : ActionsFile) :
    (record_result now customer_id action_type action_status segment predicted_roi
        estimated_cost channel scenario fs).2 =
      RecordOut.success ("Action recorded as " ++ action_status.toUpper)
        (mk_action_record now customer_id action_type action_status segment predicted_roi
          estimated_cost channel scenario)
        ((load_actions fs).length + 1)
        ("This data will improve future predictions for " ++ segment ++
         " customers in " ++ scenario ++ " scenarios") ∨
    ∃ cause, fs = ActionsFile.corrupt cause ∧
      (record_result now customer_id action_type action_status segment predicted_roi
          estimated_cost channel scenario fs).2 =
        RecordOut.error ("Failed to record action: " ++ cause) := by
  cases fs with
  | corrupt cause => exact Or.inr ⟨cause, rfl, rfl⟩
  | absent => exact Or.inl (by simp [record_result, load_actions])
  | stored log => exact Or.inl (by simp [record_result, load_actions])

/-- No successful action of the list matches, so the loop default applies. -/
theorem find_rate_of_no_match (t : String) (l : List ActionEntry)
    (h : ∀ a ∈ l, matches_action t a = false) :
    find_rate t l = 1/2 := by
  induction l with
  | nil => rfl
  | cons a rest ih =>
    have ha : matches_action t a = false := h a (by simp)
    simp only [find_rate, ha, Bool.false_eq_true, if_false]
    exact ih fun b hb => h b (by simp [hb])

/-- C8: when the segment is unknown (or the whole dataset is unavailable), or
no stored successful action matches the action type, `get_action_success_rate`
returns the neutral default 1/2 instead of failing. -/
theorem claim_C8_neutral_default (db : Option CustomerDB) (action_type segment : String)
    (h : find_segment db segment = none ∨
      ∀ a ∈ segment_actions db segment, matches_action action_type a = false) :
    get_action_success_rate db action_type segment = 1/2 := by
  cases db with
  | none => rfl
  | some d =>
    cases hl : d.lookup segment with
    | none =>
      simp [get_action_success_rate, query_historical_patterns, hl]
    | some sd =>
      have hs : segment_actions (some d) segment = sd.successful_actions := by
        simp [segment_actions, find_segment, hl]
      rcases h with h | h
      · simp [find_segment, hl] at h
      · simp only [get_action_success_rate, query_historical_patterns, hl]
        exact find_rate_of_no_match _ _ (hs ▸ h)

/-- Witness for C8: an empty dataset has no segment, so the rate is 1/2. -/
theorem claim_C8_neutral_default_witness :
    find_segment (some []) "unknown_segment" = none ∧
    get_action_success_rate (some []) "email" "unknown_segment" = 1/2 :=
  ⟨rfl, claim_C8_neutral_default (some []) "email" "unknown_segment" (Or.inl rfl)⟩

/-- Rounding half to even never drops below an integer lower bound. -/
theorem le_round_half_even (m : ℤ) (q : ℚ) (h : (m : ℚ) ≤ q) :
    m ≤ round_half_even q := by
  have hf : m ≤ ⌊q⌋ := Int.le_floor.mpr h
  unfold round_half_even
  split_ifs <;> omega

/-- Rounding half to even never exceeds an integer upper bound. -/
theorem round_half_even_le (M : ℤ) (q : ℚ) (h : q ≤ (M : ℚ)) :
    round_half_even q ≤ M := by
  have hfM : ⌊q⌋ ≤ M := by
    have := Int.floor_le_floor h
    simpa using this
  unfold round_half_even
  split_ifs with h1 h2 h3
  · exact hfM
  · have hq : (⌊q⌋ : ℚ) < q := by
      have : (0 : ℚ) < q - ⌊q⌋ := by linarith
      linarith
    have : ⌊q⌋ < M := by
      by_contra hcon
      have hMf : M ≤ ⌊q⌋ := by omega
      have : (M : ℚ) ≤ (⌊q⌋ : ℚ) := by exact_mod_cast hMf
      linarith
    omega
  · exact hfM
  · have hq : (⌊q⌋ : ℚ) < q := by
      have h12 : q - ⌊q⌋ = 1/2 := by linarith
      linarith
    have : ⌊q⌋ < M := by
      by_contra hcon
      have hMf : M ≤ ⌊q⌋ := by omega
      have : (M : ℚ) ≤ (⌊q⌋ : ℚ) := by exact_mod_cast hMf
      linarith
    omega

/-- Rounding to one decimal keeps a value of [1, 10] inside [1, 10]. -/
theorem py_round_one_mem (q : ℚ) (h1 : 1 ≤ q) (h2 : q ≤ 10) :
    1 ≤ py_round q 1 ∧ py_round q 1 ≤ 10 := by
  have hlo : ((10 : ℤ) : ℚ) ≤ q * 10 := by push_cast; linarith
  have hhi : q * 10 ≤ ((100 : ℤ) : ℚ) := by push_cast; linarith
  have hl : (10 : ℚ) ≤ (round_half_even (q * 10) : ℚ) :=
    by exact_mod_cast le_round_half_even 10 (q * 10) hlo
  have hr : (round_half_even (q * 10) : ℚ) ≤ 100 :=
    by exact_mod_cast round_half_even_le 100 (q * 10) hhi
  unfold py_round
  rw [pow_one]
  constructor
  · rw [le_div_iff₀ (by norm_num : (0 : ℚ) < 10)]
    linarith
  · rw [div_le_iff₀ (by norm_num : (0 : ℚ) < 10)]
    linarith

/-- C9: the `roi_score` produced by `score_action` always lies in the closed
interval [1, 10]: the score is clamped after all cost and channel
adjustments, for every log and every input action. -/
theorem claim_C9_roi_score_bounds (log : List PerfRecord) (action : ScoreInput) :
    1 ≤ (score_action log action).roi_score ∧ (score_action log action).roi_score ≤ 10 := by
  have key : ∀ x : ℚ,
      1 ≤ py_round (min 10 (max 1 x)) 1 ∧ py_round (min 10 (max 1 x)) 1 ≤ 10 := by
    intro x
    exact py_round_one_mem _ (le_min (by norm_num) (le_max_left _ _)) (min_le_left _ _)
  simp only [score_action]
  exact key _

/-- One successful `record_result` call appends its record to the actions
file, keeps the file writable, and leaves the customer dataset untouched. -/
theorem record_result_run_writable (a : RecordArgs) (st : SystemState)
    (h : is_writable st.actions_file = true) :
    (record_result_run a st).1.customer_data = st.customer_data ∧
    is_writable (record_result_run a st).1.actions_file = true ∧
    load_actions (record_result_run a st).1.actions_file =
      load_actions st.actions_file ++
        [mk_action_record a.now a.customer_id a.action_type a.action_status a.segment
          a.predicted_roi a.estimated_cost a.channel a.scenario] := by
  cases hfs : st.actions_file with
  | corrupt cause => rw [hfs] at h; simp [is_writable] at h
  | absent => simp [record_result_run, record_result, hfs, load_actions, is_writable]
  | stored log => simp [record_result_run, record_result, hfs, load_actions, is_writable]

/-- The reflected sample size depends only on the customer dataset. -/
theorem reflected_sample_size_congr (st1 st2 : SystemState)
    (h : st1.customer_data = st2.customer_data) (segment : String) :
    reflected_sample_size st1 segment = reflected_sample_size st2 segment := by
  simp [reflected_sample_size, h]

/-- The initial state used by the C2 counterexample and witness: the customer
dataset parses but holds no segments, the actions file does not exist yet. -/
def fresh_state : SystemState :=
  { customer_data := some [], actions_file := ActionsFile.absent }

/-- The append used by the C2 counterexample and witness. -/
def new_segment_append : RecordArgs :=
  { now := "2026-01-01T00:00:00", customer_id := "cust_1"
    action_type := "email_discount", action_status := "scheduled"
    segment := "new_segment", predicted_roi := 8, estimated_cost := 5
    channel := "email", scenario := "general" }

/-- Counterexample to C2 as stated: one successful append via `record_result`
for segment `new_segment` (so the contributed count is 1), yet the subsequent
discovery-side query for that segment reflects a sample size of 0, because
`record_result` writes `historical_actions.json` while the query path reads
the separate `historical_customer_data.json`. -/
theorem claim_C2_counterexample :
    (record_result_run new_segment_append fresh_state).2.is_success = true ∧
    reflected_sample_size (record_result_run new_segment_append fresh_state).1
      "new_segment" = 0 ∧
    ¬ (1 ≤ reflected_sample_size (record_result_run new_segment_append fresh_state).1
      "new_segment") := by
  refine ⟨rfl, rfl, ?_⟩
  intro hcontra
  have : (1 : ℕ) ≤ 0 := hcontra
  omega

/-- C2 amended: after N successful appends the historical-actions log itself
has grown by exactly N records, but the discovery-side reader is unaffected:
the customer dataset, and with it the reflected sample size of every segment,
is exactly what it was before the appends. -/
theorem claim_C2_appends_grow_log_but_not_query (calls : List RecordArgs)
    (st : SystemState) (h : is_writable st.actions_file = true) :
    (load_actions (run_appends calls st).actions_file).length =
      (load_actions st.actions_file).length + calls.length ∧
    (run_appends calls st).customer_data = st.customer_data ∧
    ∀ segment, reflected_sample_size (run_appends calls st) segment =
      reflected_sample_size st segment := by
  induction calls generalizing st with
  | nil =>
    refine ⟨by simp [run_appends], by simp [run_appends], fun segment => by simp [run_appends]⟩
  | cons a rest ih =>
    have step := record_result_run_writable a st h
    have ihr := ih (record_result_run a st).1 step.2.1
    have hrw : run_appends (a :: rest) st = run_appends rest (record_result_run a st).1 := rfl
    refine ⟨?_, ?_, ?_⟩
    · rw [hrw, ihr.1, step.2.2]
      simp
      omega
    · rw [hrw, ihr.2.1, step.1]
    · intro segment
      rw [hrw, ihr.2.2 segment,
        reflected_sample_size_congr (record_result_run a st).1 st step.1 segment]

/-- Witness for the amended C2 at a concrete state and two appends. -/
theorem claim_C2_appends_grow_log_but_not_query_witness :
    is_writable fresh_state.actions_file = true ∧
    (load_actions (run_appends [new_segment_append, new_segment_append]
      fresh_state).actions_file).length = 2 ∧
    reflected_sample_size (run_appends [new_segment_append, new_segment_append]
      fresh_state) "new_segment" = reflected_sample_size fresh_state "new_segment" := by
  have h := claim_C2_appends_grow_log_but_not_query
    [new_segment_append, new_segment_append] fresh_state rfl
  exact ⟨rfl, by simpa using h.1, h.2.2 "new_segment"⟩

end NBA
